import Mathlib

/-!
Shallow embedding of the aarch64 memory-management backend
(`src/arch/aarch64/mm.c`) and of the exception-trampoline assembly macros
(`save_volatile_to_stack`, `restore_volatile_from_stack`,
`current_exception_sp0`) of the Hafnium hypervisor, together with theorems
settling the frozen claims C1-C10 about them.

Machine integers are modelled as `Nat` with explicit `% 2 ^ 64` or masking
where the C code relies on fixed-width behaviour; stack addresses in the
trampoline model are `Int` so that the downward stack-pointer arithmetic is
exact.  System-register writes and data-cache operations are modelled as
explicit components of the functions' results.
-/

/-! ### Attribute bit constants, transcribed from the macro block of mm.c -/

def NON_SHAREABLE : Nat := 0
def OUTER_SHAREABLE : Nat := 2
def INNER_SHAREABLE : Nat := 3

def STAGE1_XN : Nat := 1 <<< 54
def STAGE1_PXN : Nat := 1 <<< 53
def STAGE1_CONTIGUOUS : Nat := 1 <<< 52
def STAGE1_DBM : Nat := 1 <<< 51
def STAGE1_NG : Nat := 1 <<< 11
def STAGE1_AF : Nat := 1 <<< 10

def STAGE1_SH (x : Nat) : Nat := x <<< 8

def STAGE1_AP2 : Nat := 1 <<< 7
def STAGE1_AP1 : Nat := 1 <<< 6

def STAGE1_AP (x : Nat) : Nat := x <<< 6

def STAGE1_NS : Nat := 1 <<< 5

def STAGE1_ATTRINDX (x : Nat) : Nat := x <<< 2

def STAGE1_READONLY : Nat := 2
def STAGE1_READWRITE : Nat := 0

def STAGE1_DEVICEINDX : Nat := 0
def STAGE1_NORMALINDX : Nat := 1

def STAGE2_XN (x : Nat) : Nat := x <<< 53

def STAGE2_CONTIGUOUS : Nat := 1 <<< 52
def STAGE2_DBM : Nat := 1 <<< 51
def STAGE2_AF : Nat := 1 <<< 10

def STAGE2_SH (x : Nat) : Nat := x <<< 8

def STAGE2_S2AP (x : Nat) : Nat := x <<< 6

def STAGE2_MEMATTR (x : Nat) : Nat := x <<< 2

def STAGE2_EXECUTE_ALL : Nat := 0
def STAGE2_EXECUTE_EL0 : Nat := 1
def STAGE2_EXECUTE_NONE : Nat := 2
def STAGE2_EXECUTE_EL1 : Nat := 3

/-- Table attributes only apply to stage 1 translations. -/
def TABLE_NSTABLE : Nat := 1 <<< 63

def TABLE_APTABLE1 : Nat := 1 <<< 62
def TABLE_APTABLE0 : Nat := 1 <<< 61
def TABLE_XNTABLE : Nat := 1 <<< 60
def TABLE_PXNTABLE : Nat := 1 <<< 59

def STAGE2_NONCACHEABLE : Nat := 1
def STAGE2_WRITETHROUGH : Nat := 2
def STAGE2_WRITEBACK : Nat := 3

def STAGE2_MEMATTR_NORMAL (outer inner : Nat) : Nat := ((outer <<< 2) ||| inner) <<< 2

def STAGE2_MEMATTR_DEVICE_nGnRnE : Nat := 0 <<< 2
def STAGE2_MEMATTR_DEVICE_nGnRE : Nat := 1 <<< 2
def STAGE2_MEMATTR_DEVICE_nGRE : Nat := 2 <<< 2
def STAGE2_MEMATTR_DEVICE_GRE : Nat := 3 <<< 2

def STAGE2_ACCESS_READ : Nat := 1
def STAGE2_ACCESS_WRITE : Nat := 2

/-- Value of the C expression `~STAGE1_AP1` truncated to 64 bits, as used by
`block_attrs &= ~STAGE1_AP1` in `arch_mm_combine_table_entry_attrs`. -/
def UINT64_MASK_NOT_AP1 : Nat := (2 ^ 64 - 1) ^^^ STAGE1_AP1

/-- Modelled from the spec: `PAGE_BITS` (the page-offset width of a 4KB
granule) comes from `inc/hf/mm.h`, which is not under `src/`; the spec fixes
`page_offset_bits = 12`. -/
def PAGE_BITS : Nat := 12

/-- Modelled from the spec: `PAGE_LEVEL_BITS` (index bits per translation
level) comes from `inc/hf/mm.h`, which is not under `src/`; the spec fixes
`bits_per_level = 9`. -/
def PAGE_LEVEL_BITS : Nat := 9

/-! ### Mode bitmask and the mutable Stage-2 geometry globals -/

/-- Modelled from the spec: the machine-independent mode bitmask flags
(`MM_MODE_R`, `MM_MODE_W`, `MM_MODE_X`, `MM_MODE_D`, `MM_MODE_STAGE1`) are
declared in `inc/hf/mm.h`, which is not under `src/`.  mm.c only ever tests
membership of each flag (`mode & MM_MODE_*`), never their numeric values, so
the mode is represented as one boolean per flag. -/
structure MMMode where
  r : Bool
  w : Bool
  x : Bool
  d : Bool
  stage1 : Bool
deriving DecidableEq, Fintype

/-- The two file-scope globals of mm.c holding the derived Stage-2 geometry:
`mm_s2_max_level` and `mm_s2_root_table_count`.  Static storage is
zero-initialised in C, giving `mmStateInit`. -/
structure MMState where
  mm_s2_max_level : Nat
  mm_s2_root_table_count : Nat
deriving DecidableEq

/-- Zero-initialised static storage: the state before `arch_mm_init` runs. -/
def mmStateInit : MMState := ⟨0, 0⟩

/-! ### arch_mm_mode_to_attrs -/

/-- Embedding of `arch_mm_mode_to_attrs` (mm.c lines 105-171). -/
def arch_mm_mode_to_attrs (mode : MMMode) : Nat :=
  if mode.stage1 then
    let attrs := STAGE1_AF ||| STAGE1_SH OUTER_SHAREABLE
    let attrs := if !mode.x then attrs ||| STAGE1_XN else attrs
    let attrs := if mode.w then attrs ||| STAGE1_AP STAGE1_READWRITE
                 else attrs ||| STAGE1_AP STAGE1_READONLY
    let attrs := if mode.d then attrs ||| STAGE1_ATTRINDX STAGE1_DEVICEINDX
                 else attrs ||| STAGE1_ATTRINDX STAGE1_NORMALINDX
    attrs
  else
    let access := if mode.r then STAGE2_ACCESS_READ else 0
    let access := if mode.w then access ||| STAGE2_ACCESS_WRITE else access
    let attrs := STAGE2_AF ||| STAGE2_SH NON_SHAREABLE
    let attrs := attrs ||| STAGE2_S2AP access
    let attrs := if mode.x then attrs ||| STAGE2_XN STAGE2_EXECUTE_ALL
                 else attrs ||| STAGE2_XN STAGE2_EXECUTE_NONE
    let attrs := if mode.d then attrs ||| STAGE2_MEMATTR_DEVICE_GRE
                 else attrs ||| STAGE2_MEMATTR_NORMAL STAGE2_WRITEBACK STAGE2_WRITEBACK
    attrs

/-! ### arch_mm_max_level / arch_mm_root_table_count -/

/-- Embedding of `arch_mm_max_level` (mm.c lines 176-188); the globals are
passed explicitly. -/
def arch_mm_max_level (st : MMState) (mode : MMMode) : Nat :=
  if mode.stage1 then 2 else st.mm_s2_max_level

/-- Embedding of `arch_mm_root_table_count` (mm.c lines 199-207). -/
def arch_mm_root_table_count (st : MMState) (mode : MMMode) : Nat :=
  if mode.stage1 then 1 else st.mm_s2_root_table_count

/-! ### arch_mm_init -/

/-- The two diagnostic failure kinds of `arch_mm_init`, identified by the
`dlog_nosync` message each failure path prints. -/
inductive MMInitError where
  | unsupportedGranule
  | unsupportedAddressSize
deriving DecidableEq

/-- Result of `arch_mm_init`: the returned boolean, which failure message (if
any) was printed, the globals after the call, and the value written to each
system register (`none` when the register was not written). -/
structure ArchMMInitResult where
  success : Bool
  error : Option MMInitError
  state : MMState
  vtcr_el2 : Option Nat
  mair_el2 : Option Nat
  ttbr0_el2 : Option Nat
  tcr_el2 : Option Nat
  sctlr_el2 : Option Nat
deriving DecidableEq

/-- The 16-entry `pa_bits_table` of `arch_mm_init`; entries 6-15 are the
zero-initialised remainder of the C aggregate initialiser. -/
def pa_bits_table : List Nat := [32, 36, 40, 42, 44, 48, 0, 0, 0, 0, 0, 0, 0, 0, 0, 0]

/-- Embedding of `arch_mm_init` (mm.c lines 209-328).  `features` is the value
read from `id_aa64mmfr0_el1`, `table` the physical address of the root table;
the `first` flag only controls logging and is omitted.  Register writes are
recorded in the result instead of performed. -/
def arch_mm_init (features : Nat) (table : Nat) (st : MMState) : ArchMMInitResult :=
  let pa_bits := pa_bits_table.getD (features &&& 0xf) 0
  if (features >>> 28) &&& 0xf ≠ 0 then
    { success := false, error := some .unsupportedGranule, state := st,
      vtcr_el2 := none, mair_el2 := none, ttbr0_el2 := none,
      tcr_el2 := none, sctlr_el2 := none }
  else if pa_bits = 0 then
    { success := false, error := some .unsupportedAddressSize, state := st,
      vtcr_el2 := none, mair_el2 := none, ttbr0_el2 := none,
      tcr_el2 := none, sctlr_el2 := none }
  else
    let sl0 := if 44 ≤ pa_bits then 2 else if 35 ≤ pa_bits then 1 else 0
    let max_level := if 44 ≤ pa_bits then 3 else if 35 ≤ pa_bits then 2 else 1
    let extend_bits0 := (pa_bits - PAGE_BITS) % PAGE_LEVEL_BITS
    let extend_bits := if 4 < extend_bits0 then 0 else extend_bits0
    let root_table_count := 1 <<< extend_bits
    let vtcr := (1 <<< 31) ||| ((features &&& 0xf) <<< 16) ||| (0 <<< 14) |||
      (3 <<< 12) ||| (1 <<< 10) ||| (1 <<< 8) ||| (sl0 <<< 6) ||| (64 - pa_bits)
    let mair := (0 <<< (8 * STAGE1_DEVICEINDX)) ||| (0xff <<< (8 * STAGE1_NORMALINDX))
    let tcr := (1 <<< 20) ||| ((features &&& 0xf) <<< 16) ||| (0 <<< 14) |||
      (3 <<< 12) ||| (1 <<< 10) ||| (1 <<< 8) ||| 25
    let sctlr := (1 <<< 0) ||| (1 <<< 1) ||| (1 <<< 2) ||| (1 <<< 3) |||
      (3 <<< 4) ||| (1 <<< 11) ||| (1 <<< 12) ||| (1 <<< 16) ||| (1 <<< 18) |||
      (1 <<< 19) ||| (3 <<< 22) ||| (3 <<< 28)
    { success := true, error := none,
      state := { mm_s2_max_level := max_level, mm_s2_root_table_count := root_table_count },
      vtcr_el2 := some vtcr, mair_el2 := some mair, ttbr0_el2 := some table,
      tcr_el2 := some tcr, sctlr_el2 := some sctlr }

/-! ### arch_mm_combine_table_entry_attrs -/

/-- Embedding of `arch_mm_combine_table_entry_attrs` (mm.c lines 330-353). -/
def arch_mm_combine_table_entry_attrs (table_attrs block_attrs : Nat) : Nat :=
  let b := block_attrs
  let b := if table_attrs &&& TABLE_NSTABLE ≠ 0 then b ||| STAGE1_NS else b
  let b := if table_attrs &&& TABLE_APTABLE1 ≠ 0 then b ||| STAGE1_AP2 else b
  let b := if table_attrs &&& TABLE_APTABLE0 ≠ 0 then b &&& UINT64_MASK_NOT_AP1 else b
  let b := if table_attrs &&& TABLE_XNTABLE ≠ 0 then b ||| STAGE1_XN else b
  let b := if table_attrs &&& TABLE_PXNTABLE ≠ 0 then b ||| STAGE1_PXN else b
  b

/-! ### arch_mm_write_back_dcache -/

/-- The while loop of `arch_mm_write_back_dcache`, returning the operand of
each `dc cvac` instruction it issues.  The line size is `1 <<< k`.  `fuel`
bounds the number of iterations structurally; `cleanLines` instantiates it so
that it can never run out, since every iteration advances `line_begin` by at
least one byte. -/
def cleanLinesAux : Nat → Nat → Nat → Nat → List Nat
  | 0, _, _, _ => []
  | fuel + 1, k, line_begin, stop =>
    if line_begin < stop then
      line_begin :: cleanLinesAux fuel k (line_begin + (1 <<< k)) stop
    else []

/-- The loop of `arch_mm_write_back_dcache` from `line_begin` to `stop` with
line size `1 <<< k`. -/
def cleanLines (k line_begin stop : Nat) : List Nat :=
  cleanLinesAux (stop - line_begin) k line_begin stop

/-- Result of `arch_mm_write_back_dcache`: the list of cleaned line addresses
and whether the trailing `dsb sy` barrier was issued. -/
structure DCacheResult where
  cleaned : List Nat
  dsb_sy : Bool
deriving DecidableEq

/-- Embedding of `arch_mm_write_back_dcache` (mm.c lines 92-103).  `ctr` is
the value of `CTR_EL0`; the cache-line size is `1 << ((ctr >> 16) & 0xf)`.
`line_begin` is `base & ~(line_size - 1)` on the 64-bit `uintptr_t`, and the
end pointer wraps modulo `2 ^ 64` as `base + size` does in C. -/
def arch_mm_write_back_dcache (ctr base size : Nat) : DCacheResult :=
  let k := (ctr >>> 16) &&& 0xf
  let line_begin := base &&& ((2 ^ 64 - 1) ^^^ ((1 <<< k) - 1))
  let stop := (base + size) % 2 ^ 64
  { cleaned := cleanLines k line_begin stop, dsb_sy := true }

/-! ### Exception trampoline macros (exceptions.S fragment) -/

/-- Machine state touched by the trampoline macros: the general-purpose
registers x0-x30, the two banked stack pointers with the `spsel` selector,
`elr_elx`/`spsr_elx`, and the memory the stack lives in.  Addresses are `Int`
so stack-pointer arithmetic is exact; each 8-byte slot holds one register
value. -/
structure TrapState where
  x0 : Nat
  x1 : Nat
  x2 : Nat
  x3 : Nat
  x4 : Nat
  x5 : Nat
  x6 : Nat
  x7 : Nat
  x8 : Nat
  x9 : Nat
  x10 : Nat
  x11 : Nat
  x12 : Nat
  x13 : Nat
  x14 : Nat
  x15 : Nat
  x16 : Nat
  x17 : Nat
  x18 : Nat
  x19 : Nat
  x20 : Nat
  x21 : Nat
  x22 : Nat
  x23 : Nat
  x24 : Nat
  x25 : Nat
  x26 : Nat
  x27 : Nat
  x28 : Nat
  x29 : Nat
  x30 : Nat
  sp0 : Int
  spx : Int
  spsel : Bool
  elr : Nat
  spsr : Nat
  mem : Int → Nat

/-- Store one 8-byte value at address `a`. -/
def memWrite (m : Int → Nat) (a : Int) (v : Nat) : Int → Nat :=
  fun b => if b = a then v else m b

/-- The stack pointer currently selected by `spsel`. -/
def activeSp (s : TrapState) : Int :=
  if s.spsel then s.spx else s.sp0

/-- Write the stack pointer currently selected by `spsel`. -/
def setActiveSp (s : TrapState) (v : Int) : TrapState :=
  if s.spsel then { s with spx := v } else { s with sp0 := v }

/-- The sequence of stores performed by `save_volatile_to_stack` into the
24-slot frame starting at `sp`: x0-x18 and x29-x30 at their slot offsets,
`elr_elx`/`spsr_elx` at slots 22 and 23 (slot 19 is the alignment hole). -/
def saveMem (s : TrapState) (sp : Int) : Int → Nat :=
  let m := memWrite (memWrite s.mem sp s.x0) (sp + 8 * 1) s.x1
  let m := memWrite (memWrite m (sp + 8 * 2) s.x2) (sp + 8 * 3) s.x3
  let m := memWrite (memWrite m (sp + 8 * 4) s.x4) (sp + 8 * 5) s.x5
  let m := memWrite (memWrite m (sp + 8 * 6) s.x6) (sp + 8 * 7) s.x7
  let m := memWrite (memWrite m (sp + 8 * 8) s.x8) (sp + 8 * 9) s.x9
  let m := memWrite (memWrite m (sp + 8 * 10) s.x10) (sp + 8 * 11) s.x11
  let m := memWrite (memWrite m (sp + 8 * 12) s.x12) (sp + 8 * 13) s.x13
  let m := memWrite (memWrite m (sp + 8 * 14) s.x14) (sp + 8 * 15) s.x15
  let m := memWrite (memWrite m (sp + 8 * 16) s.x16) (sp + 8 * 17) s.x17
  let m := memWrite m (sp + 8 * 18) s.x18
  let m := memWrite (memWrite m (sp + 8 * 20) s.x29) (sp + 8 * 21) s.x30
  memWrite (memWrite m (sp + 8 * 22) s.elr) (sp + 8 * 23) s.spsr

/-- Embedding of the `save_volatile_to_stack` macro: reserve 24 slots with the
pre-indexed `stp x0, x1, [sp, #-(8 * 24)]!`, store x2-x18 and x29-x30 at their
slot offsets, then move `elr_elx`/`spsr_elx` into x0/x1 and store them at
slots 22 and 23. -/
def save_volatile_to_stack (s : TrapState) : TrapState :=
  let sp := activeSp s - 8 * 24
  setActiveSp { s with mem := saveMem s sp, x0 := s.elr, x1 := s.spsr } sp

/-- Embedding of the `restore_volatile_from_stack` macro: reload x2-x18 and
x29-x30, reload `elr_elx`/`spsr_elx` through x0/x1 from slots 22 and 23, then
reload x0/x1 from slots 0 and 1 with the post-indexed
`ldp x0, x1, [sp], #8 * 24`, releasing the frame. -/
def restore_volatile_from_stack (s : TrapState) : TrapState :=
  let sp := activeSp s
  let s := { s with
    x2 := s.mem (sp + 8 * 2), x3 := s.mem (sp + 8 * 3),
    x4 := s.mem (sp + 8 * 4), x5 := s.mem (sp + 8 * 5),
    x6 := s.mem (sp + 8 * 6), x7 := s.mem (sp + 8 * 7),
    x8 := s.mem (sp + 8 * 8), x9 := s.mem (sp + 8 * 9),
    x10 := s.mem (sp + 8 * 10), x11 := s.mem (sp + 8 * 11),
    x12 := s.mem (sp + 8 * 12), x13 := s.mem (sp + 8 * 13),
    x14 := s.mem (sp + 8 * 14), x15 := s.mem (sp + 8 * 15),
    x16 := s.mem (sp + 8 * 16), x17 := s.mem (sp + 8 * 17),
    x18 := s.mem (sp + 8 * 18),
    x29 := s.mem (sp + 8 * 20), x30 := s.mem (sp + 8 * 21) }
  let s := { s with
    x0 := s.mem (sp + 8 * 22), x1 := s.mem (sp + 8 * 23),
    elr := s.mem (sp + 8 * 22), spsr := s.mem (sp + 8 * 23) }
  setActiveSp { s with x0 := s.mem sp, x1 := s.mem (sp + 8 * 1) } (sp + 8 * 24)

/-- Embedding of the `current_exception_sp0` macro with a handler that
modifies nothing: `msr spsel, #1`, save, `bl handler` (which writes the return
address `ret` to the link register x30), restore, `msr spsel, #0`, `eret`.
`eret` transfers control to `elr` with state `spsr` and changes none of the
modelled registers. -/
def current_exception_sp0_noop (s : TrapState) (ret : Nat) : TrapState :=
  let s := { s with spsel := true }
  let s := save_volatile_to_stack s
  let s := { s with x30 := ret }
  let s := restore_volatile_from_stack s
  let s := { s with spsel := false }
  s

/-- Names of the registers the trampoline save/restore steps touch. -/
inductive TrampReg where
  | gpr (i : Fin 31)
  | elr_elx
  | spsr_elx
deriving DecidableEq

/-- The registers stored by `save_volatile_to_stack`, in store order:
x0-x18, x29, x30, then elr_elx and spsr_elx. -/
def save_volatile_regs : List TrampReg :=
  [.gpr 0, .gpr 1, .gpr 2, .gpr 3, .gpr 4, .gpr 5, .gpr 6, .gpr 7, .gpr 8,
   .gpr 9, .gpr 10, .gpr 11, .gpr 12, .gpr 13, .gpr 14, .gpr 15, .gpr 16,
   .gpr 17, .gpr 18, .gpr 29, .gpr 30, .elr_elx, .spsr_elx]

/-- The registers restored by `restore_volatile_from_stack`, in load order:
x2-x18, x29, x30, then elr_elx and spsr_elx, then x0 and x1. -/
def restore_volatile_regs : List TrampReg :=
  [.gpr 2, .gpr 3, .gpr 4, .gpr 5, .gpr 6, .gpr 7, .gpr 8, .gpr 9, .gpr 10,
   .gpr 11, .gpr 12, .gpr 13, .gpr 14, .gpr 15, .gpr 16, .gpr 17, .gpr 18,
   .gpr 29, .gpr 30, .elr_elx, .spsr_elx, .gpr 0, .gpr 1]

/-! ### Bit-level helper lemmas -/

/-- A single-bit constant `1 <<< n` has exactly bit `n` set. -/
theorem testBit_one_shiftLeft (n i : Nat) : (1 <<< n).testBit i = decide (n = i) := by
  rw [Nat.one_shiftLeft]
  rcases eq_or_ne n i with rfl | h
  · simp
  · simp [Nat.testBit_two_pow_of_ne h, h]

/-- The C idiom `x & SINGLE_BIT_MASK` used as a truth value tests one bit. -/
theorem and_one_shiftLeft_ne_zero (t n : Nat) : (t &&& 1 <<< n ≠ 0) ↔ t.testBit n = true := by
  rw [Nat.one_shiftLeft, Nat.and_two_pow]
  cases h : t.testBit n <;> simp [h]

/-! ### C3 -/

/-- C3: for every mode without the stage-1 selector, built from any
combination of readable/writable, executable/not and device/normal, the word
produced by `arch_mm_mode_to_attrs` determines the original flags exactly:
readable is bit 6, writable is bit 7, the execute-control field at bits 53-54
is 0 for executable and 2 for not, and the memory-attribute field at bits 2-5
distinguishes device from normal. -/
theorem stage2_attrs_round_trip (r w x d : Bool) :
    (arch_mm_mode_to_attrs ⟨r, w, x, d, false⟩).testBit 6 = r ∧
    (arch_mm_mode_to_attrs ⟨r, w, x, d, false⟩).testBit 7 = w ∧
    ((arch_mm_mode_to_attrs ⟨r, w, x, d, false⟩ >>> 53) &&& 3 =
      if x then STAGE2_EXECUTE_ALL else STAGE2_EXECUTE_NONE) ∧
    ((arch_mm_mode_to_attrs ⟨r, w, x, d, false⟩ >>> 2) &&& 0xf =
      if d then 3 else 15) ∧
    (arch_mm_mode_to_attrs ⟨r, w, x, true, false⟩ >>> 2) &&& 0xf ≠
      (arch_mm_mode_to_attrs ⟨r, w, x, false, false⟩ >>> 2) &&& 0xf := by
  revert r w x d; decide

/-! ### C7 -/

/-- C7: for every mode with the stage-1 selector set, the produced word has
the access flag (bit 10) set, shareability field (bits 8-9) outer-shareable,
the never-execute bit (bit 54) iff the executable flag is absent, the
access-permission field (bits 6-7) read-only iff the writable flag is absent,
and the attribute-index field (bits 2-3) selecting device or normal memory. -/
theorem stage1_attrs_fields (mode : MMMode) (h : mode.stage1 = true) :
    (arch_mm_mode_to_attrs mode).testBit 10 = true ∧
    (arch_mm_mode_to_attrs mode >>> 8) &&& 3 = OUTER_SHAREABLE ∧
    (arch_mm_mode_to_attrs mode).testBit 54 = !mode.x ∧
    ((arch_mm_mode_to_attrs mode >>> 6) &&& 3 =
      if mode.w then STAGE1_READWRITE else STAGE1_READONLY) ∧
    ((arch_mm_mode_to_attrs mode >>> 2) &&& 3 =
      if mode.d then STAGE1_DEVICEINDX else STAGE1_NORMALINDX) := by
  revert h; revert mode; decide

/-- Witness for C7 at the concrete mode readable+writable, not executable,
normal memory, stage 1. -/
theorem stage1_attrs_fields_witness :
    (⟨true, true, false, false, true⟩ : MMMode).stage1 = true ∧
    ((arch_mm_mode_to_attrs ⟨true, true, false, false, true⟩).testBit 10 = true ∧
     (arch_mm_mode_to_attrs ⟨true, true, false, false, true⟩ >>> 8) &&& 3 = OUTER_SHAREABLE ∧
     (arch_mm_mode_to_attrs ⟨true, true, false, false, true⟩).testBit 54 =
       !(⟨true, true, false, false, true⟩ : MMMode).x ∧
     ((arch_mm_mode_to_attrs ⟨true, true, false, false, true⟩ >>> 6) &&& 3 =
       if (⟨true, true, false, false, true⟩ : MMMode).w then STAGE1_READWRITE
       else STAGE1_READONLY) ∧
     ((arch_mm_mode_to_attrs ⟨true, true, false, false, true⟩ >>> 2) &&& 3 =
       if (⟨true, true, false, false, true⟩ : MMMode).d then STAGE1_DEVICEINDX
       else STAGE1_NORMALINDX)) :=
  ⟨rfl, stage1_attrs_fields ⟨true, true, false, false, true⟩ rfl⟩

/-! ### C8 -/

/-- C8: with the stage-1 selector the oracle returns exactly max level 2 and
root count 1 whatever the derived globals hold; without it, the oracle returns
the derived globals, and on the zero-initialised pre-probe state it returns
level 0 and root count 0. -/
theorem max_level_root_count_oracle (st : MMState) (mode : MMMode) :
    (mode.stage1 = true →
      arch_mm_max_level st mode = 2 ∧ arch_mm_root_table_count st mode = 1) ∧
    (mode.stage1 = false →
      arch_mm_max_level st mode = st.mm_s2_max_level ∧
      arch_mm_root_table_count st mode = st.mm_s2_root_table_count ∧
      arch_mm_max_level mmStateInit mode = 0 ∧
      arch_mm_root_table_count mmStateInit mode = 0) := by
  constructor <;> intro h <;>
    simp [arch_mm_max_level, arch_mm_root_table_count, mmStateInit, h]

/-- Witness for C8 at concrete globals (5, 4) for both a stage-1 and a
stage-2 mode. -/
theorem max_level_root_count_oracle_witness :
    ((⟨false, false, false, false, true⟩ : MMMode).stage1 = true ∧
      arch_mm_max_level ⟨5, 4⟩ ⟨false, false, false, false, true⟩ = 2 ∧
      arch_mm_root_table_count ⟨5, 4⟩ ⟨false, false, false, false, true⟩ = 1) ∧
    ((⟨true, false, false, false, false⟩ : MMMode).stage1 = false ∧
      arch_mm_max_level ⟨5, 4⟩ ⟨true, false, false, false, false⟩ =
        (⟨5, 4⟩ : MMState).mm_s2_max_level ∧
      arch_mm_root_table_count ⟨5, 4⟩ ⟨true, false, false, false, false⟩ =
        (⟨5, 4⟩ : MMState).mm_s2_root_table_count ∧
      arch_mm_max_level mmStateInit ⟨true, false, false, false, false⟩ = 0 ∧
      arch_mm_root_table_count mmStateInit ⟨true, false, false, false, false⟩ = 0) :=
  ⟨⟨rfl, (max_level_root_count_oracle ⟨5, 4⟩ ⟨false, false, false, false, true⟩).1 rfl⟩,
   ⟨rfl, (max_level_root_count_oracle ⟨5, 4⟩ ⟨true, false, false, false, false⟩).2 rfl⟩⟩

/-! ### C9 -/

/-- C9: when none of the five table-descriptor override bits 59-63 is set in
the ancestor attributes, `arch_mm_combine_table_entry_attrs` returns the leaf
attributes unchanged. -/
theorem combine_no_table_bits_id (t b : Nat)
    (h63 : t.testBit 63 = false) (h62 : t.testBit 62 = false)
    (h61 : t.testBit 61 = false) (h60 : t.testBit 60 = false)
    (h59 : t.testBit 59 = false) :
    arch_mm_combine_table_entry_attrs t b = b := by
  unfold arch_mm_combine_table_entry_attrs
  simp only [TABLE_NSTABLE, TABLE_APTABLE1, TABLE_APTABLE0, TABLE_XNTABLE,
    TABLE_PXNTABLE, and_one_shiftLeft_ne_zero, h63, h62, h61, h60, h59]
  simp

/-- Witness for C9: a Stage-2 style table descriptor with a physical address
payload but reserved-zero attribute bits leaves the leaf word untouched. -/
theorem combine_no_table_bits_id_witness :
    (1 <<< 50 : Nat).testBit 63 = false ∧ (1 <<< 50 : Nat).testBit 62 = false ∧
    (1 <<< 50 : Nat).testBit 61 = false ∧ (1 <<< 50 : Nat).testBit 60 = false ∧
    (1 <<< 50 : Nat).testBit 59 = false ∧
    arch_mm_combine_table_entry_attrs (1 <<< 50) 12345 = 12345 :=
  ⟨by decide, by decide, by decide, by decide, by decide,
   combine_no_table_bits_id (1 <<< 50) 12345 (by decide) (by decide) (by decide)
     (by decide) (by decide)⟩

/-! ### C4 -/

/-- Combination never clears the upper never-execute bit: once bit 54 is set
in the leaf it stays set through any further ancestor. -/
theorem combine_testBit54_mono (t b : Nat) (h : b.testBit 54 = true) :
    (arch_mm_combine_table_entry_attrs t b).testBit 54 = true := by
  have c5 : Nat.testBit (1 <<< 5) 54 = false := by decide
  have c7 : Nat.testBit (1 <<< 7) 54 = false := by decide
  have cm : Nat.testBit ((2 ^ 64 - 1) ^^^ (1 <<< 6)) 54 = true := by decide
  have c54 : Nat.testBit (1 <<< 54) 54 = true := by decide
  have c53 : Nat.testBit (1 <<< 53) 54 = false := by decide
  unfold arch_mm_combine_table_entry_attrs
  simp only [TABLE_NSTABLE, TABLE_APTABLE1, TABLE_APTABLE0, TABLE_XNTABLE,
    TABLE_PXNTABLE, and_one_shiftLeft_ne_zero, UINT64_MASK_NOT_AP1, STAGE1_NS,
    STAGE1_AP2, STAGE1_AP1, STAGE1_XN, STAGE1_PXN]
  split_ifs <;> simp_all [Nat.testBit_or, Nat.testBit_and, Nat.testBit_xor]

/-- Folding the combiner root-to-leaf preserves a set bit 54. -/
theorem foldl_combine_testBit54 (path : List Nat) (block : Nat)
    (h : block.testBit 54 = true) :
    (path.foldl (fun blk ta => arch_mm_combine_table_entry_attrs ta blk)
      block).testBit 54 = true := by
  induction path generalizing block with
  | nil => exact h
  | cons hd tl ih => exact ih _ (combine_testBit54_mono hd block h)

/-- Single-step helper for C4: an ancestor with the XNTABLE bit 60 forces the
leaf bit 54 on. -/
theorem combine_sets_testBit54 (t b : Nat) (h : t.testBit 60 = true) :
    (arch_mm_combine_table_entry_attrs t b).testBit 54 = true := by
  have c5 : Nat.testBit (1 <<< 5) 54 = false := by decide
  have c7 : Nat.testBit (1 <<< 7) 54 = false := by decide
  have cm : Nat.testBit ((2 ^ 64 - 1) ^^^ (1 <<< 6)) 54 = true := by decide
  have c54 : Nat.testBit (1 <<< 54) 54 = true := by decide
  have c53 : Nat.testBit (1 <<< 53) 54 = false := by decide
  unfold arch_mm_combine_table_entry_attrs
  simp only [TABLE_NSTABLE, TABLE_APTABLE1, TABLE_APTABLE0, TABLE_XNTABLE,
    TABLE_PXNTABLE, and_one_shiftLeft_ne_zero, UINT64_MASK_NOT_AP1, STAGE1_NS,
    STAGE1_AP2, STAGE1_AP1, STAGE1_XN, STAGE1_PXN]
  split_ifs <;> simp_all [Nat.testBit_or, Nat.testBit_and, Nat.testBit_xor]

/-- C4: `arch_mm_combine_table_entry_attrs` only restricts the leaf: an
ancestor non-secure table bit (63) sets the leaf non-secure bit (5); a
write-restricting ancestor access bit (62 resp. 61) forces the corresponding
leaf permission bit (7 set resp. 6 cleared); an execute-forbidding ancestor
bit (60 resp. 59) sets the matching leaf never-execute bit (54 resp. 53); and
folded root-to-leaf over ancestors, one ancestor with the execute-restricting
table bit 60 forces bit 54 of the final leaf whatever the others are. -/
theorem combine_restricts (t b : Nat) :
    (t.testBit 63 = true → (arch_mm_combine_table_entry_attrs t b).testBit 5 = true) ∧
    (t.testBit 62 = true → (arch_mm_combine_table_entry_attrs t b).testBit 7 = true) ∧
    (t.testBit 61 = true → (arch_mm_combine_table_entry_attrs t b).testBit 6 = false) ∧
    (t.testBit 60 = true → (arch_mm_combine_table_entry_attrs t b).testBit 54 = true) ∧
    (t.testBit 59 = true → (arch_mm_combine_table_entry_attrs t b).testBit 53 = true) ∧
    (∀ (path : List Nat) (block t' : Nat), t' ∈ path → t'.testBit 60 = true →
      (path.foldl (fun blk ta => arch_mm_combine_table_entry_attrs ta blk)
        block).testBit 54 = true) := by
  refine ⟨?_, ?_, ?_, ?_, ?_, ?_⟩
  · intro h
    have c5 : Nat.testBit (1 <<< 5) 5 = true := by decide
    have c7 : Nat.testBit (1 <<< 7) 5 = false := by decide
    have cm : Nat.testBit ((2 ^ 64 - 1) ^^^ (1 <<< 6)) 5 = true := by decide
    have c54 : Nat.testBit (1 <<< 54) 5 = false := by decide
    have c53 : Nat.testBit (1 <<< 53) 5 = false := by decide
    unfold arch_mm_combine_table_entry_attrs
    simp only [TABLE_NSTABLE, TABLE_APTABLE1, TABLE_APTABLE0, TABLE_XNTABLE,
      TABLE_PXNTABLE, and_one_shiftLeft_ne_zero, UINT64_MASK_NOT_AP1, STAGE1_NS,
      STAGE1_AP2, STAGE1_AP1, STAGE1_XN, STAGE1_PXN]
    split_ifs <;> simp_all [Nat.testBit_or, Nat.testBit_and, Nat.testBit_xor]
  · intro h
    have c5 : Nat.testBit (1 <<< 5) 7 = false := by decide
    have c7 : Nat.testBit (1 <<< 7) 7 = true := by decide
    have cm : Nat.testBit ((2 ^ 64 - 1) ^^^ (1 <<< 6)) 7 = true := by decide
    have c54 : Nat.testBit (1 <<< 54) 7 = false := by decide
    have c53 : Nat.testBit (1 <<< 53) 7 = false := by decide
    unfold arch_mm_combine_table_entry_attrs
    simp only [TABLE_NSTABLE, TABLE_APTABLE1, TABLE_APTABLE0, TABLE_XNTABLE,
      TABLE_PXNTABLE, and_one_shiftLeft_ne_zero, UINT64_MASK_NOT_AP1, STAGE1_NS,
      STAGE1_AP2, STAGE1_AP1, STAGE1_XN, STAGE1_PXN]
    split_ifs <;> simp_all [Nat.testBit_or, Nat.testBit_and, Nat.testBit_xor]
  · intro h
    have c5 : Nat.testBit (1 <<< 5) 6 = false := by decide
    have c7 : Nat.testBit (1 <<< 7) 6 = false := by decide
    have cm : Nat.testBit ((2 ^ 64 - 1) ^^^ (1 <<< 6)) 6 = false := by decide
    have c54 : Nat.testBit (1 <<< 54) 6 = false := by decide
    have c53 : Nat.testBit (1 <<< 53) 6 = false := by decide
    unfold arch_mm_combine_table_entry_attrs
    simp only [TABLE_NSTABLE, TABLE_APTABLE1, TABLE_APTABLE0, TABLE_XNTABLE,
      TABLE_PXNTABLE, and_one_shiftLeft_ne_zero, UINT64_MASK_NOT_AP1, STAGE1_NS,
      STAGE1_AP2, STAGE1_AP1, STAGE1_XN, STAGE1_PXN]
    split_ifs <;> simp_all [Nat.testBit_or, Nat.testBit_and, Nat.testBit_xor]
  · exact combine_sets_testBit54 t b
  · intro h
    have c5 : Nat.testBit (1 <<< 5) 53 = false := by decide
    have c7 : Nat.testBit (1 <<< 7) 53 = false := by decide
    have cm : Nat.testBit ((2 ^ 64 - 1) ^^^ (1 <<< 6)) 53 = true := by decide
    have c54 : Nat.testBit (1 <<< 54) 53 = false := by decide
    have c53 : Nat.testBit (1 <<< 53) 53 = true := by decide
    unfold arch_mm_combine_table_entry_attrs
    simp only [TABLE_NSTABLE, TABLE_APTABLE1, TABLE_APTABLE0, TABLE_XNTABLE,
      TABLE_PXNTABLE, and_one_shiftLeft_ne_zero, UINT64_MASK_NOT_AP1, STAGE1_NS,
      STAGE1_AP2, STAGE1_AP1, STAGE1_XN, STAGE1_PXN]
    split_ifs <;> simp_all [Nat.testBit_or, Nat.testBit_and, Nat.testBit_xor]
  · intro path block t' hmem h60
    induction path generalizing block with
    | nil => cases hmem
    | cons hd tl ih =>
      rcases List.mem_cons.mp hmem with rfl | htl
      · exact foldl_combine_testBit54 tl _ (combine_sets_testBit54 t' block h60)
      · exact ih (arch_mm_combine_table_entry_attrs hd block) htl

/-- Witness for C4 at an ancestor with all five override bits set and a
two-level path whose first ancestor forbids execution. -/
theorem combine_restricts_witness :
    ((31 <<< 59 : Nat).testBit 63 = true ∧
      (arch_mm_combine_table_entry_attrs (31 <<< 59) (1 <<< 6)).testBit 5 = true) ∧
    ((31 <<< 59 : Nat).testBit 62 = true ∧
      (arch_mm_combine_table_entry_attrs (31 <<< 59) (1 <<< 6)).testBit 7 = true) ∧
    ((31 <<< 59 : Nat).testBit 61 = true ∧
      (arch_mm_combine_table_entry_attrs (31 <<< 59) (1 <<< 6)).testBit 6 = false) ∧
    ((31 <<< 59 : Nat).testBit 60 = true ∧
      (arch_mm_combine_table_entry_attrs (31 <<< 59) (1 <<< 6)).testBit 54 = true) ∧
    ((31 <<< 59 : Nat).testBit 59 = true ∧
      (arch_mm_combine_table_entry_attrs (31 <<< 59) (1 <<< 6)).testBit 53 = true) ∧
    ((1 <<< 60 : Nat) ∈ [(1 <<< 60 : Nat), 0] ∧ (1 <<< 60 : Nat).testBit 60 = true ∧
      ([(1 <<< 60 : Nat), 0].foldl
        (fun blk ta => arch_mm_combine_table_entry_attrs ta blk) 0).testBit 54 = true) :=
  ⟨⟨by decide, (combine_restricts (31 <<< 59) (1 <<< 6)).1 (by decide)⟩,
   ⟨by decide, (combine_restricts (31 <<< 59) (1 <<< 6)).2.1 (by decide)⟩,
   ⟨by decide, (combine_restricts (31 <<< 59) (1 <<< 6)).2.2.1 (by decide)⟩,
   ⟨by decide, (combine_restricts (31 <<< 59) (1 <<< 6)).2.2.2.1 (by decide)⟩,
   ⟨by decide, (combine_restricts (31 <<< 59) (1 <<< 6)).2.2.2.2.1 (by decide)⟩,
   ⟨by simp, by decide,
    (combine_restricts 0 0).2.2.2.2.2 [1 <<< 60, 0] 0 (1 <<< 60)
      (by simp) (by decide)⟩⟩

/-! ### C10 -/

/-- C10: on every bit position below 64 outside {5, 6, 7, 53, 54}, the result
of `arch_mm_combine_table_entry_attrs` agrees with the leaf attributes; in
particular the contiguous, dirty-bit-modifier, not-global, access-flag,
shareability and attribute-index bits of the leaf are never changed. -/
theorem combine_frame (t b i : Nat) (hi : i < 64) (h5 : i ≠ 5) (h6 : i ≠ 6)
    (h7 : i ≠ 7) (h53 : i ≠ 53) (h54 : i ≠ 54) :
    (arch_mm_combine_table_entry_attrs t b).testBit i = b.testBit i := by
  have c5 : Nat.testBit (1 <<< 5) i = false := by
    rw [show (1 <<< 5 : Nat) = 2 ^ 5 from rfl]
    exact Nat.testBit_two_pow_of_ne (Ne.symm h5)
  have c7 : Nat.testBit (1 <<< 7) i = false := by
    rw [show (1 <<< 7 : Nat) = 2 ^ 7 from rfl]
    exact Nat.testBit_two_pow_of_ne (Ne.symm h7)
  have c54 : Nat.testBit (1 <<< 54) i = false := by
    rw [show (1 <<< 54 : Nat) = 2 ^ 54 from rfl]
    exact Nat.testBit_two_pow_of_ne (Ne.symm h54)
  have c53 : Nat.testBit (1 <<< 53) i = false := by
    rw [show (1 <<< 53 : Nat) = 2 ^ 53 from rfl]
    exact Nat.testBit_two_pow_of_ne (Ne.symm h53)
  have cm : Nat.testBit ((2 ^ 64 - 1) ^^^ (1 <<< 6)) i = true := by
    rw [Nat.testBit_xor, Nat.testBit_two_pow_sub_one,
      show (1 <<< 6 : Nat) = 2 ^ 6 from rfl, Nat.testBit_two_pow_of_ne (Ne.symm h6)]
    simp [hi]
  unfold arch_mm_combine_table_entry_attrs
  simp only [TABLE_NSTABLE, TABLE_APTABLE1, TABLE_APTABLE0, TABLE_XNTABLE,
    TABLE_PXNTABLE, and_one_shiftLeft_ne_zero, UINT64_MASK_NOT_AP1, STAGE1_NS,
    STAGE1_AP2, STAGE1_AP1, STAGE1_XN, STAGE1_PXN]
  split_ifs <;> simp_all [Nat.testBit_or, Nat.testBit_and, Nat.testBit_xor]

/-- Witness for C10 at an ancestor with all five override bits set and the
shareability bit 8 of the leaf. -/
theorem combine_frame_witness :
    (8 : Nat) < 64 ∧ (8 : Nat) ≠ 5 ∧ (8 : Nat) ≠ 6 ∧ (8 : Nat) ≠ 7 ∧
    (8 : Nat) ≠ 53 ∧ (8 : Nat) ≠ 54 ∧
    (arch_mm_combine_table_entry_attrs (31 <<< 59) (1 <<< 8)).testBit 8 =
      (1 <<< 8 : Nat).testBit 8 :=
  ⟨by decide, by decide, by decide, by decide, by decide, by decide,
   combine_frame (31 <<< 59) (1 <<< 8) 8 (by decide) (by decide) (by decide)
     (by decide) (by decide) (by decide)⟩

/-! ### C1 -/

/-- The nonzero entries of the address-width lookup table are exactly the
entries at indices 0-5. -/
theorem pa_bits_getD_eq_zero_iff (n : Nat) (h : n ≤ 15) :
    pa_bits_table.getD n 0 = 0 ↔ 5 < n := by
  interval_cases n <;> simp [pa_bits_table]

/-- C1: for every feature value whose granule check passes and whose
physical-address width `w` is supported (a nonzero table entry, so
`w ∈ {32, 36, 40, 42, 44, 48}`), `arch_mm_init` derives max level 3 for
`w ≥ 44`, 2 for `w ≥ 35`, else 1, and root-table count
`2 ^ ((w - 12) % 9)`, reset to `2 ^ 0` when the exponent exceeds 4; in
particular `w = 44` gives level 3 and root count 1, `w = 48` gives root
count 1, and `w = 40` gives level 2 and root count 2. -/
theorem arch_mm_init_geometry (features table : Nat) (st : MMState)
    (hg : (features >>> 28) &&& 0xf = 0)
    (hp : pa_bits_table.getD (features &&& 0xf) 0 ≠ 0) :
    (arch_mm_init features table st).state.mm_s2_max_level =
      (if 44 ≤ pa_bits_table.getD (features &&& 0xf) 0 then 3
       else if 35 ≤ pa_bits_table.getD (features &&& 0xf) 0 then 2 else 1) ∧
    (arch_mm_init features table st).state.mm_s2_root_table_count =
      (if 4 < (pa_bits_table.getD (features &&& 0xf) 0 - 12) % 9 then 2 ^ 0
       else 2 ^ ((pa_bits_table.getD (features &&& 0xf) 0 - 12) % 9)) ∧
    (pa_bits_table.getD (features &&& 0xf) 0 = 44 →
      (arch_mm_init features table st).state.mm_s2_max_level = 3 ∧
      (arch_mm_init features table st).state.mm_s2_root_table_count = 1) ∧
    (pa_bits_table.getD (features &&& 0xf) 0 = 48 →
      (arch_mm_init features table st).state.mm_s2_root_table_count = 1) ∧
    (pa_bits_table.getD (features &&& 0xf) 0 = 40 →
      (arch_mm_init features table st).state.mm_s2_max_level = 2 ∧
      (arch_mm_init features table st).state.mm_s2_root_table_count = 2) := by
  have h16 : features &&& 0xf ≤ 15 := Nat.and_le_right
  simp only [arch_mm_init, hg, PAGE_BITS, PAGE_LEVEL_BITS]
  generalize hn : features &&& 0xf = n at h16 hp ⊢
  interval_cases n <;> simp_all [pa_bits_table]

/-- Witness for C1 at feature value 2, i.e. width 40: granule supported,
level 2 with two concatenated root tables. -/
theorem arch_mm_init_geometry_witness :
    ((2 : Nat) >>> 28) &&& 0xf = 0 ∧ pa_bits_table.getD ((2 : Nat) &&& 0xf) 0 ≠ 0 ∧
    ((arch_mm_init 2 4096 mmStateInit).state.mm_s2_max_level =
      (if 44 ≤ pa_bits_table.getD ((2 : Nat) &&& 0xf) 0 then 3
       else if 35 ≤ pa_bits_table.getD ((2 : Nat) &&& 0xf) 0 then 2 else 1) ∧
     (arch_mm_init 2 4096 mmStateInit).state.mm_s2_root_table_count =
      (if 4 < (pa_bits_table.getD ((2 : Nat) &&& 0xf) 0 - 12) % 9 then 2 ^ 0
       else 2 ^ ((pa_bits_table.getD ((2 : Nat) &&& 0xf) 0 - 12) % 9)) ∧
     (pa_bits_table.getD ((2 : Nat) &&& 0xf) 0 = 44 →
      (arch_mm_init 2 4096 mmStateInit).state.mm_s2_max_level = 3 ∧
      (arch_mm_init 2 4096 mmStateInit).state.mm_s2_root_table_count = 1) ∧
     (pa_bits_table.getD ((2 : Nat) &&& 0xf) 0 = 48 →
      (arch_mm_init 2 4096 mmStateInit).state.mm_s2_root_table_count = 1) ∧
     (pa_bits_table.getD ((2 : Nat) &&& 0xf) 0 = 40 →
      (arch_mm_init 2 4096 mmStateInit).state.mm_s2_max_level = 2 ∧
      (arch_mm_init 2 4096 mmStateInit).state.mm_s2_root_table_count = 2)) :=
  ⟨by decide, by decide, arch_mm_init_geometry 2 4096 mmStateInit (by decide) (by decide)⟩

/-! ### C2 -/

/-- C2: `arch_mm_init` fails exactly when the 4KB-granule field (bits 28-31)
is nonzero or the address-range field (bits 0-3) indexes a zero table entry,
equivalently an index above 5; the granule failure reports
`UnsupportedGranule`, the address-range failure `UnsupportedAddressSize`; and
every failing run leaves the Stage-2 geometry globals at their prior values
and writes none of the system registers. -/
theorem arch_mm_init_failure (features table : Nat) (st : MMState) :
    ((arch_mm_init features table st).success = false ↔
      ((features >>> 28) &&& 0xf ≠ 0 ∨ pa_bits_table.getD (features &&& 0xf) 0 = 0)) ∧
    (pa_bits_table.getD (features &&& 0xf) 0 = 0 ↔ 5 < features &&& 0xf) ∧
    ((features >>> 28) &&& 0xf ≠ 0 →
      (arch_mm_init features table st).error = some .unsupportedGranule) ∧
    ((features >>> 28) &&& 0xf = 0 → pa_bits_table.getD (features &&& 0xf) 0 = 0 →
      (arch_mm_init features table st).error = some .unsupportedAddressSize) ∧
    ((arch_mm_init features table st).success = false →
      (arch_mm_init features table st).state = st ∧
      (arch_mm_init features table st).vtcr_el2 = none ∧
      (arch_mm_init features table st).mair_el2 = none ∧
      (arch_mm_init features table st).ttbr0_el2 = none ∧
      (arch_mm_init features table st).tcr_el2 = none ∧
      (arch_mm_init features table st).sctlr_el2 = none) := by
  refine ⟨?_, pa_bits_getD_eq_zero_iff _ Nat.and_le_right, ?_, ?_, ?_⟩ <;>
    by_cases hg : (features >>> 28) &&& 0xf = 0 <;>
    by_cases hp : pa_bits_table.getD (features &&& 0xf) 0 = 0 <;>
    simp_all [arch_mm_init]

/-- Witness for C2 at the failing feature value 6 (granule supported, address
range index 6, a zero table entry) with nonzero prior globals. -/
theorem arch_mm_init_failure_witness :
    ((arch_mm_init 6 4096 ⟨3, 4⟩).success = false ↔
      (((6 : Nat) >>> 28) &&& 0xf ≠ 0 ∨ pa_bits_table.getD ((6 : Nat) &&& 0xf) 0 = 0)) ∧
    (arch_mm_init 6 4096 ⟨3, 4⟩).error = some .unsupportedAddressSize ∧
    (arch_mm_init 6 4096 ⟨3, 4⟩).state = ⟨3, 4⟩ ∧
    (arch_mm_init 6 4096 ⟨3, 4⟩).vtcr_el2 = none ∧
    (arch_mm_init 6 4096 ⟨3, 4⟩).mair_el2 = none ∧
    (arch_mm_init 6 4096 ⟨3, 4⟩).ttbr0_el2 = none ∧
    (arch_mm_init 6 4096 ⟨3, 4⟩).tcr_el2 = none ∧
    (arch_mm_init 6 4096 ⟨3, 4⟩).sctlr_el2 = none :=
  ⟨(arch_mm_init_failure 6 4096 ⟨3, 4⟩).1,
   (arch_mm_init_failure 6 4096 ⟨3, 4⟩).2.2.2.1 (by decide) (by decide),
   (arch_mm_init_failure 6 4096 ⟨3, 4⟩).2.2.2.2 (by decide)⟩

/-! ### C6 -/

/-- Counterexample to C6 as stated: with a cache-line size of 64 bytes
(`CTR_EL0` line-size field 6) and the unaligned base address 1, a zero-length
write-back still cleans one line — rounding the start down to the line
boundary 0 puts it strictly below `end = base + 0 = 1`, so the loop body runs
once. -/
theorem write_back_dcache_zero_len_counterexample :
    (arch_mm_write_back_dcache (6 <<< 16) 1 0).cleaned = [0] ∧
    (arch_mm_write_back_dcache (6 <<< 16) 1 0).cleaned.length ≠ 0 := by
  constructor <;> decide

/-- C6 (amended): for every base address aligned to the cache-line size and
below `2 ^ 64`, a zero-length `arch_mm_write_back_dcache` performs zero
cache-line clean operations and still issues the completion barrier. -/
theorem write_back_dcache_zero_len_aligned (ctr base : Nat) (hb : base < 2 ^ 64)
    (ha : base % (1 <<< ((ctr >>> 16) &&& 0xf)) = 0) :
    (arch_mm_write_back_dcache ctr base 0).cleaned = [] ∧
    (arch_mm_write_back_dcache ctr base 0).dsb_sy = true := by
  have hmask : base &&& ((2 ^ 64 - 1) ^^^ ((1 <<< ((ctr >>> 16) &&& 0xf)) - 1)) = base := by
    set k := (ctr >>> 16) &&& 0xf with hk
    apply Nat.eq_of_testBit_eq
    intro i
    rw [Nat.testBit_and, Nat.testBit_xor, Nat.testBit_two_pow_sub_one,
      Nat.one_shiftLeft, Nat.testBit_two_pow_sub_one]
    rcases lt_or_le i k with hik | hik
    · have ha' : base % 2 ^ k = 0 := by rwa [Nat.one_shiftLeft] at ha
      have h0 := Nat.testBit_mod_two_pow base k i
      rw [ha'] at h0
      simp only [Nat.zero_testBit, hik, decide_True, Bool.true_and] at h0
      simp [← h0]
    · rcases lt_or_le i 64 with hi64 | hi64
      · simp [Nat.not_lt.mpr hik, hi64]
      · have hhi : base.testBit i = false := by
          apply Nat.testBit_lt_two_pow
          exact lt_of_lt_of_le hb (Nat.pow_le_pow_right (by norm_num) hi64)
        simp [hhi]
  unfold arch_mm_write_back_dcache
  simp only [hmask, Nat.add_zero, Nat.mod_eq_of_lt hb]
  exact ⟨by simp [cleanLines, Nat.sub_self, cleanLinesAux], trivial⟩

/-- Witness for the amended C6 at a 64-byte line size and the aligned base
address 64. -/
theorem write_back_dcache_zero_len_aligned_witness :
    (64 : Nat) < 2 ^ 64 ∧
    (64 : Nat) % (1 <<< (((6 <<< 16 : Nat) >>> 16) &&& 0xf)) = 0 ∧
    ((arch_mm_write_back_dcache (6 <<< 16) 64 0).cleaned = [] ∧
     (arch_mm_write_back_dcache (6 <<< 16) 64 0).dsb_sy = true) :=
  ⟨by decide, by decide,
   write_back_dcache_zero_len_aligned (6 <<< 16) 64 (by decide) (by decide)⟩

/-! ### C5 -/

/-- Reading a written cell back returns the written value. -/
theorem memWrite_apply_eq (m : Int → Nat) (a : Int) (v : Nat) :
    memWrite m a v a = v := by
  simp [memWrite]

/-- Reading a written cell back returns the written value (address given up to
propositional equality). -/
theorem memWrite_apply_eq' (m : Int → Nat) (a b : Int) (v : Nat) (h : b = a) :
    memWrite m a v b = v := by
  simp [memWrite, h]

/-- Reading any other cell is unaffected by a write. -/
theorem memWrite_apply_ne (m : Int → Nat) (a b : Int) (v : Nat) (h : b ≠ a) :
    memWrite m a v b = m b := by
  simp [memWrite, h]

set_option maxHeartbeats 40000000 in
/-- C5: the register set stored by the trampoline save step equals the set
restored by the matching restore step, namely x0-x18, x29, x30, elr_elx and
spsr_elx; for every initial machine state, a full `current_exception_sp0`
trampoline around a handler that modifies nothing restores every
general-purpose register, the return address, the saved processor state, and
both stack pointers to their pre-entry values; and the save step moves the
active stack pointer down by exactly 24 slots while the restore step releases
exactly 24 slots. -/
theorem trampoline_round_trip (s : TrapState) (ret : Nat) :
    save_volatile_regs.toFinset = restore_volatile_regs.toFinset ∧
    (current_exception_sp0_noop s ret).x0 = s.x0 ∧
    (current_exception_sp0_noop s ret).x1 = s.x1 ∧
    (current_exception_sp0_noop s ret).x2 = s.x2 ∧
    (current_exception_sp0_noop s ret).x3 = s.x3 ∧
    (current_exception_sp0_noop s ret).x4 = s.x4 ∧
    (current_exception_sp0_noop s ret).x5 = s.x5 ∧
    (current_exception_sp0_noop s ret).x6 = s.x6 ∧
    (current_exception_sp0_noop s ret).x7 = s.x7 ∧
    (current_exception_sp0_noop s ret).x8 = s.x8 ∧
    (current_exception_sp0_noop s ret).x9 = s.x9 ∧
    (current_exception_sp0_noop s ret).x10 = s.x10 ∧
    (current_exception_sp0_noop s ret).x11 = s.x11 ∧
    (current_exception_sp0_noop s ret).x12 = s.x12 ∧
    (current_exception_sp0_noop s ret).x13 = s.x13 ∧
    (current_exception_sp0_noop s ret).x14 = s.x14 ∧
    (current_exception_sp0_noop s ret).x15 = s.x15 ∧
    (current_exception_sp0_noop s ret).x16 = s.x16 ∧
    (current_exception_sp0_noop s ret).x17 = s.x17 ∧
    (current_exception_sp0_noop s ret).x18 = s.x18 ∧
    (current_exception_sp0_noop s ret).x19 = s.x19 ∧
    (current_exception_sp0_noop s ret).x20 = s.x20 ∧
    (current_exception_sp0_noop s ret).x21 = s.x21 ∧
    (current_exception_sp0_noop s ret).x22 = s.x22 ∧
    (current_exception_sp0_noop s ret).x23 = s.x23 ∧
    (current_exception_sp0_noop s ret).x24 = s.x24 ∧
    (current_exception_sp0_noop s ret).x25 = s.x25 ∧
    (current_exception_sp0_noop s ret).x26 = s.x26 ∧
    (current_exception_sp0_noop s ret).x27 = s.x27 ∧
    (current_exception_sp0_noop s ret).x28 = s.x28 ∧
    (current_exception_sp0_noop s ret).x29 = s.x29 ∧
    (current_exception_sp0_noop s ret).x30 = s.x30 ∧
    (current_exception_sp0_noop s ret).elr = s.elr ∧
    (current_exception_sp0_noop s ret).spsr = s.spsr ∧
    (current_exception_sp0_noop s ret).sp0 = s.sp0 ∧
    (current_exception_sp0_noop s ret).spx = s.spx ∧
    activeSp (save_volatile_to_stack s) = activeSp s - 8 * 24 ∧
    activeSp (restore_volatile_from_stack s) = activeSp s + 8 * 24 := by
  obtain ⟨x0, x1, x2, x3, x4, x5, x6, x7, x8, x9, x10, x11, x12, x13, x14, x15,
    x16, x17, x18, x19, x20, x21, x22, x23, x24, x25, x26, x27, x28, x29, x30,
    sp0, spx, spsel, elr, spsr, mem⟩ := s
  refine ⟨by decide, ?_, ?_, ?_, ?_, ?_, ?_, ?_, ?_, ?_, ?_, ?_, ?_, ?_, ?_,
    ?_, ?_, ?_, ?_, ?_, ?_, ?_, ?_, ?_, ?_, ?_, ?_, ?_, ?_, ?_, ?_, ?_, ?_,
    ?_, ?_, ?_, ?_, ?_⟩ <;>
  · cases spsel <;>
      simp (disch := first | omega | trivial | exact not_false) only
        [current_exception_sp0_noop, save_volatile_to_stack,
         restore_volatile_from_stack, activeSp, setActiveSp, saveMem,
         memWrite_apply_eq, memWrite_apply_eq', memWrite_apply_ne,
         if_neg, if_pos] <;>
      try omega
